import Mathlib

/-!
Shallow embedding of `src/scenario1/qase_copy_results_v4.py`.

The script copies automated test results from a Qase project B into a
project A, correlating cases through a custom "mapping_id" field.  HTTP
calls are modelled by an explicit environment (`Env`): the remote store's
responses are data, and a raised `RuntimeError` (non-success HTTP status in
`api_get`/`api_post`) is modelled as an explicit "raised" flag that
propagates exactly where the Python exception would.

Python-value conventions used throughout:
* a JSON value that may be a string or `null` is `Option String`;
  Python's `str(x)` on it is `pyStr` (`str(None) = "None"`);
* Python truthiness of an optional string (`if not mapping_value`) is
  `none` or the empty string being falsy;
* Python truthiness of `dict.get(k)` for an int-valued dict is `none` or
  `some 0` being falsy (`0` is falsy in Python);
* a Python dict built by repeated `d[k] = v` is modelled as the list of
  insertions in program order, looked up by `dget` (the LAST insertion for
  a key wins, like a dict overwrite).
-/

namespace QaseCopy

/-- `MAPPING_FIELD_ID = 1` — the configured custom field "mapping_id". -/
def MAPPING_FIELD_ID : Nat := 1

/-- One entry of a case's `custom_fields` list: `item.get("id")` and
`item.get("value")` (`none` models an absent key or a JSON `null`). -/
structure CustomField where
  id : Option Nat
  value : Option String
deriving DecidableEq, Repr

/-- A Qase case as the script reads it: `case["id"]` and
`case.get("custom_fields", [])`. -/
structure Case where
  id : Nat
  custom_fields : List CustomField
deriving DecidableEq, Repr

/-- Python `str` applied to a string-or-null value: `str(None) = "None"`. -/
def pyStr : Option String → String
  | none => "None"
  | some s => s

/-- Python `str.lower()` (character-wise lower-casing; the statuses this
script meets are ASCII, where `Char.toLower` agrees with Python). -/
def pyLower (s : String) : String := ⟨s.data.map Char.toLower⟩

/-- Python `str.strip()`: surrounding whitespace removed from both ends. -/
def pyStrip (s : String) : String :=
  ⟨((s.data.dropWhile Char.isWhitespace).reverse.dropWhile Char.isWhitespace).reverse⟩

/-- `extract_custom_field_value(cf_list, field_id)`: first entry whose
`id` equals `field_id` yields `str(value).strip()`; no match yields
Python `None`. -/
def extract_custom_field_value (cf_list : List CustomField) (field_id : Nat) :
    Option String :=
  match cf_list with
  | [] => none
  | item :: rest =>
    if item.id = some field_id then some (pyStrip (pyStr item.value))
    else extract_custom_field_value rest field_id

/-- The dict insertions one case contributes in `build_mapping`'s loop:
`if mapping_value: mapping[mapping_value] = case["id"]` (Python `None` and
`""` are falsy). -/
def entryOf (c : Case) : List (String × Nat) :=
  match extract_custom_field_value c.custom_fields MAPPING_FIELD_ID with
  | none => []
  | some v => if v.isEmpty then [] else [(v, c.id)]

/-- `build_mapping(project)` over an already-fetched case list: the dict's
insertions in loop order (see `dget` for dict lookup semantics). -/
def build_mapping (cases : List Case) : List (String × Nat) :=
  match cases with
  | [] => []
  | c :: rest => entryOf c ++ build_mapping rest

/-- Dict lookup over an insertion list: the LAST insertion for a key wins,
matching Python dict overwrite semantics (`mapping[k] = v`). -/
def dget (m : List (String × Nat)) (k : String) : Option Nat :=
  match m with
  | [] => none
  | (k1, v1) :: rest =>
    match dget rest k with
    | some r => some r
    | none => if k1 = k then some v1 else none

/-- A raw result status as the script can see it: an `int`, a string, or
`None` (`res.get("status")`). -/
inductive StatusVal where
  | int (n : Int)
  | str (s : String)
  | null
deriving DecidableEq, Repr

/-- Python `str` of a raw status value (`str(5) = "5"`, `str(None) = "None"`). -/
def pyStrStatus : StatusVal → String
  | .int n => toString n
  | .str s => s
  | .null => "None"

/-- `convert_status(s)`: integers pass through; anything else is
stringified, lower-cased and looked up in the fixed table, defaulting
to `4`. -/
def convert_status (s : StatusVal) : Int :=
  match s with
  | .int n => n
  | _ =>
    let key := pyLower (pyStrStatus s)
    if key = "passed" then 1
    else if key = "failed" then 5
    else if key = "skipped" then 2
    else if key = "blocked" then 3
    else 4

/-- The `result` envelope of one page response, as `paginate` probes it:
each field is `some l` when the corresponding container key is present
with list `l`, `none` when the key is absent. -/
structure PageResult (α : Type) where
  entities : Option (List α)
  items : Option (List α)
  results : Option (List α)
  cases : Option (List α)

/-- The candidate-key probe of `paginate`: keys `entities`, `items`,
`results`, `cases` tried in that fixed order, first present wins. -/
def pickEntities {α : Type} (r : PageResult α) : Option (List α) :=
  match r.entities with
  | some v => some v
  | none =>
    match r.items with
    | some v => some v
    | none =>
      match r.results with
      | some v => some v
      | none => r.cases

/-- The `while True` page loop of `paginate`, with explicit fuel (the
Python loop is unbounded; every claim is settled at sufficient fuel).
`fetch p` is the `result` envelope the server returns for `page = p`,
`limit = 100`.  Returns the accumulated items and the list of page
numbers actually requested.  A page with no recognized container key or
an empty item list stops the loop before extending; a page shorter than
100 items extends and then stops; otherwise the next page is requested. -/
def paginateRun {α : Type} (fetch : Nat → PageResult α) :
    Nat → Nat → List α × List Nat
  | 0, _ => ([], [])
  | fuel + 1, page =>
    match pickEntities (fetch page) with
    | none => ([], [page])
    | some entities =>
      if entities.isEmpty then ([], [page])
      else if entities.length < 100 then (entities, [page])
      else
        let rest := paginateRun fetch fuel (page + 1)
        (entities ++ rest.1, page :: rest.2)

/-- `paginate(url)`: items of all pages starting from page 1. -/
def paginate {α : Type} (fetch : Nat → PageResult α) (fuel : Nat) : List α :=
  (paginateRun fetch fuel 1).1

/-- A server that pages a fixed collection `l` in fixed 100-item pages
under the `entities` key: page `p` (1-based) holds items
`l[(p-1)*100 : p*100]`. -/
def pagesOf {α : Type} (l : List α) (p : Nat) : PageResult α :=
  ⟨some ((l.drop ((p - 1) * 100)).take 100), none, none, none⟩

/-- A result record as `copy_results` reads it: `res.get("run_id")`,
`res.get("case_id")`, `res.get("status")` (absent keys are `none`). -/
structure ResultRec where
  run_id : Option Nat
  case_id : Option Nat
  status : StatusVal
deriving DecidableEq, Repr

/-- The response of `get_case(project_b, case_id)`: `httpErr` models a
non-success HTTP status (so `api_get` raises `RuntimeError`); `ok r`
models a 200 response whose `result` key holds `r` (`none` for a
missing/null case). -/
inductive GetCaseResp where
  | httpErr
  | ok (result : Option Case)
deriving DecidableEq, Repr

/-- The remote store as `copy_results` observes it once the run is under
way: project A's fetched cases, project B's fetched results, project B's
per-case GET responses, and the outcome of the k-th POST write attempt
(`false` models a raise in `post_result`). -/
structure Env where
  casesA : List Case
  allResults : List ResultRec
  getCase : Option Nat → GetCaseResp
  postOk : Nat → Bool

/-- The payload POSTed by `copy_results` for one eligible result. -/
structure Payload where
  case_id : Nat
  status : String
  comment : String
deriving DecidableEq, Repr

/-- The mutable state threaded through the per-result loop: the three
summary counters, the number of write attempts so far, and the effect
traces (case ids fetched from B, payloads posted). -/
structure LoopState where
  copied : Nat
  skipped : Nat
  errors : Nat
  nposts : Nat
  posts : List Payload
  caseFetches : List (Option Nat)
deriving DecidableEq, Repr

/-- The initial loop state: `summary = {"copied": 0, "skipped": 0, "errors": 0}`. -/
def initState : LoopState := ⟨0, 0, 0, 0, [], []⟩

/-- One iteration of the `for res in results_b` loop of `copy_results`.
Returns the new state and a flag that is `true` iff the iteration raised
(only the un-guarded `get_case` call can: a non-success case GET
propagates `RuntimeError` out of the loop, while `post_result` is inside
`try/except`).  All other paths `continue` after bumping exactly one
counter. -/
def processOne (env : Env) (mapping : List (String × Nat))
    (project_b : String) (run_b : Nat) (st : LoopState) (res : ResultRec) :
    LoopState × Bool :=
  let st0 := { st with caseFetches := st.caseFetches ++ [res.case_id] }
  match env.getCase res.case_id with
  | .httpErr => (st0, true)
  | .ok none => ({ st0 with errors := st0.errors + 1 }, false)
  | .ok (some case_b) =>
    match extract_custom_field_value case_b.custom_fields MAPPING_FIELD_ID with
    | none => ({ st0 with skipped := st0.skipped + 1 }, false)
    | some mv =>
      if mv.isEmpty then ({ st0 with skipped := st0.skipped + 1 }, false)
      else
        match dget mapping mv with
        | none => ({ st0 with skipped := st0.skipped + 1 }, false)
        | some target_case_id =>
          if target_case_id = 0 then
            ({ st0 with skipped := st0.skipped + 1 }, false)
          else
            let payload : Payload :=
              ⟨target_case_id, pyLower (pyStrStatus res.status),
                "Copied from " ++ project_b ++ " run " ++ toString run_b⟩
            let k := st0.nposts
            let st1 := { st0 with nposts := k + 1, posts := st0.posts ++ [payload] }
            if env.postOk k then ({ st1 with copied := st1.copied + 1 }, false)
            else ({ st1 with errors := st1.errors + 1 }, false)

/-- The whole `for res in results_b` loop: stops at the first raising
iteration (the `RuntimeError` propagates), flag `true` iff it raised. -/
def runLoop (env : Env) (mapping : List (String × Nat))
    (project_b : String) (run_b : Nat) :
    LoopState → List ResultRec → LoopState × Bool
  | st, [] => (st, false)
  | st, res :: rest =>
    match processOne env mapping project_b run_b st res with
    | (st1, true) => (st1, true)
    | (st1, false) => runLoop env mapping project_b run_b st1 rest

/-- The final summary counters (`summary.json`). -/
structure Summary where
  copied : Nat
  skipped : Nat
  errors : Nat
deriving DecidableEq, Repr

/-- How an invocation of `copy_results` ends: `earlyReturn` is the bare
`return` on an empty mapping (no summary object is ever created or
written); `fatal` is a propagated `RuntimeError`; `done s` means the
loop finished and `summary.json` was written with `s`. -/
inductive Outcome where
  | earlyReturn
  | fatal
  | done (s : Summary)
deriving DecidableEq, Repr

/-- The observable outcome of one `copy_results` invocation: how it
ended, which case GETs were issued against project B, which payloads
were POSTed, and whether the full project-B result collection was
fetched at all. -/
structure RunOut where
  outcome : Outcome
  caseFetches : List (Option Nat)
  posts : List Payload
  resultsFetched : Bool
deriving DecidableEq, Repr

/-- `copy_results(project_a, run_a, project_b, run_b)`: build the mapping
from project A, return early if it is empty, otherwise fetch all project
B results, filter them to `run_b`, and run the per-result loop.
`project_a` and `run_a` only route the POST and do not affect the model's
observables beyond `env.postOk`. -/
def copy_results (env : Env) (project_a : String) (run_a : Nat)
    (project_b : String) (run_b : Nat) : RunOut :=
  let mapping_a := build_mapping env.casesA
  if mapping_a.isEmpty then ⟨.earlyReturn, [], [], false⟩
  else
    let results_b := env.allResults.filter (fun r => r.run_id = some run_b)
    match runLoop env mapping_a project_b run_b initState results_b with
    | (st, true) => ⟨.fatal, st.caseFetches, st.posts, true⟩
    | (st, false) =>
      ⟨.done ⟨st.copied, st.skipped, st.errors⟩, st.caseFetches, st.posts, true⟩

/-! ### Helper lemmas -/

lemma pickEntities_pagesOf {α : Type} (l : List α) (p : Nat) :
    pickEntities (pagesOf l p) = some ((l.drop ((p - 1) * 100)).take 100) := rfl

lemma paginateRun_step_long {α : Type} (fetch : Nat → PageResult α)
    (f p : Nat) (es : List α) (hpick : pickEntities (fetch p) = some es)
    (hlen : es.length = 100) :
    paginateRun fetch (f + 1) p =
      (es ++ (paginateRun fetch f (p + 1)).1,
        p :: (paginateRun fetch f (p + 1)).2) := by
  have hne : es.isEmpty = false := by
    cases es with
    | nil => simp at hlen
    | cons a t => rfl
  simp [paginateRun, hpick, hne, hlen]

lemma paginateRun_step_short {α : Type} (fetch : Nat → PageResult α)
    (f p : Nat) (es : List α) (hpick : pickEntities (fetch p) = some es)
    (hne : es ≠ []) (hlt : es.length < 100) :
    paginateRun fetch (f + 1) p = (es, [p]) := by
  have hne1 : es.isEmpty = false := by simpa using hne
  simp [paginateRun, hpick, hne1, hlt]

/-! ### Claim theorems -/

/-- C3.  A 250-item collection served in fixed 100-item pages is fetched
in exactly 3 page requests (pages 1, 2, 3, with served page sizes 100,
100, 50) and `paginate` returns all 250 items in server order with no
duplicates or gaps (its output is the collection itself); and for any
server, a page whose item list is non-empty but shorter than 100 items
is final: the loop returns right after it, with no further page
requested. -/
theorem C3_pagination_exact :
    (∀ (α : Type) (l : List α) (f : Nat), l.length = 250 →
      paginateRun (pagesOf l) (f + 3) 1 = (l, [1, 2, 3])
      ∧ paginate (pagesOf l) (f + 3) = l
      ∧ (pickEntities (pagesOf l 1)).map List.length = some 100
      ∧ (pickEntities (pagesOf l 2)).map List.length = some 100
      ∧ (pickEntities (pagesOf l 3)).map List.length = some 50)
    ∧ (∀ (α : Type) (fetch : Nat → PageResult α) (f p : Nat) (es : List α),
      pickEntities (fetch p) = some es → es ≠ [] → es.length < 100 →
      paginateRun fetch (f + 1) p = (es, [p])) := by
  constructor
  · intro α l f h
    have e1 : pickEntities (pagesOf l 1) = some (l.take 100) := by
      norm_num [pickEntities_pagesOf]
    have e2 : pickEntities (pagesOf l 2) = some ((l.drop 100).take 100) := by
      norm_num [pickEntities_pagesOf]
    have e3 : pickEntities (pagesOf l 3) = some ((l.drop 200).take 100) := by
      norm_num [pickEntities_pagesOf]
    have l1 : (l.take 100).length = 100 := by simp [List.length_take, h]
    have l2 : ((l.drop 100).take 100).length = 100 := by
      simp [List.length_take, List.length_drop, h]
    have hd200 : (l.drop 200).length = 50 := by simp [List.length_drop, h]
    have e3' : (l.drop 200).take 100 = l.drop 200 := by
      apply List.take_of_length_le; omega
    have l3 : ((l.drop 200).take 100).length = 50 := by rw [e3']; exact hd200
    have hmain : paginateRun (pagesOf l) (f + 3) 1 = (l, [1, 2, 3]) := by
      rw [show f + 3 = (f + 2) + 1 from rfl,
        paginateRun_step_long (pagesOf l) (f + 2) 1 (l.take 100) e1 l1]
      rw [show f + 2 = (f + 1) + 1 from rfl,
        paginateRun_step_long (pagesOf l) (f + 1) 2 ((l.drop 100).take 100) e2 l2]
      have hne3 : (l.drop 200).take 100 ≠ [] := by
        intro hc
        rw [hc] at l3
        simp at l3
      rw [paginateRun_step_short (pagesOf l) f 3 ((l.drop 200).take 100) e3
        hne3 (by simp [l3])]
      rw [e3']
      have : l.take 100 ++ ((l.drop 100).take 100 ++ l.drop 200) = l := by
        have h200 : l.drop 200 = (l.drop 100).drop 100 := by
          rw [List.drop_drop]
        rw [h200, List.take_append_drop, List.take_append_drop]
      simp [this]
    refine ⟨hmain, ?_, ?_, ?_, ?_⟩
    · unfold paginate
      rw [hmain]
    · simp [e1, l1]
    · simp [e2, l2]
    · simp [e3, l3]
  · intro α fetch f p es hpick hne hlt
    exact paginateRun_step_short fetch f p es hpick hne hlt

/-- Witness for C3: the collection `0, 1, ..., 249` is fetched in pages
1, 2, 3 and returned whole, and a concrete 37-item page is final. -/
theorem C3_pagination_exact_witness :
    ((List.range 250).length = 250
      ∧ paginateRun (pagesOf (List.range 250)) 3 1 = (List.range 250, [1, 2, 3]))
    ∧ (pickEntities (⟨some (List.range 37), none, none, none⟩ : PageResult Nat) =
          some (List.range 37)
      ∧ List.range 37 ≠ []
      ∧ (List.range 37).length < 100
      ∧ paginateRun (fun _ => ⟨some (List.range 37), none, none, none⟩) 1 1 =
          (List.range 37, [1])) := by
  have h250 : (List.range 250).length = 250 := by simp
  have h1 := (C3_pagination_exact.1 Nat (List.range 250) 0 h250).1
  have hpick : pickEntities
      ((fun _ => (⟨some (List.range 37), none, none, none⟩ : PageResult Nat)) 1) =
      some (List.range 37) := rfl
  have hne : List.range 37 ≠ [] := by simp
  have hlt : (List.range 37).length < 100 := by simp
  have h2 := C3_pagination_exact.2 Nat
    (fun _ => ⟨some (List.range 37), none, none, none⟩) 0 1 (List.range 37)
    hpick hne hlt
  exact ⟨⟨h250, h1⟩, rfl, hne, hlt, h2⟩

/-- C4.  `convert_status` is a pure total Lean function; integers pass
through unchanged, every other value is stringified, lower-cased and
matched against the fixed table passed→1, failed→5, skipped→2,
blocked→3 with fallback 4 (null stringifies to `"None"`, hence 4); the
spec's test vector evaluates as stated. -/
theorem C4_convert_status_total :
    (∀ n : Int, convert_status (.int n) = n)
    ∧ (∀ s : String,
        convert_status (.str s) =
          if pyLower s = "passed" then 1
          else if pyLower s = "failed" then 5
          else if pyLower s = "skipped" then 2
          else if pyLower s = "blocked" then 3
          else 4)
    ∧ convert_status .null = 4
    ∧ convert_status (.str "PASSED") = 1
    ∧ convert_status (.str "Skipped") = 2
    ∧ convert_status (.str "blocked") = 3
    ∧ convert_status (.str "failed") = 5
    ∧ convert_status (.str "weird-value") = 4
    ∧ convert_status (.int 7) = 7 := by
  refine ⟨fun n => rfl, fun s => rfl, by decide, ?_, ?_, ?_, ?_, ?_, rfl⟩
  all_goals decide

lemma processOne_sum (env : Env) (mapping : List (String × Nat))
    (pb : String) (rb : Nat) (st : LoopState) (res : ResultRec)
    (h : (processOne env mapping pb rb st res).2 = false) :
    ((processOne env mapping pb rb st res).1).copied
      + ((processOne env mapping pb rb st res).1).skipped
      + ((processOne env mapping pb rb st res).1).errors
      = st.copied + st.skipped + st.errors + 1 := by
  rcases hg : env.getCase res.case_id with _ | (_ | c)
  · simp [processOne, hg] at h
  · simp [processOne, hg] <;> omega
  · rcases he : extract_custom_field_value c.custom_fields MAPPING_FIELD_ID
      with _ | mv
    · simp [processOne, hg, he] <;> omega
    · by_cases hmv : mv.isEmpty
      · simp [processOne, hg, he, hmv] <;> omega
      · rcases hd : dget mapping mv with _ | t
        · simp [processOne, hg, he, hmv, hd] <;> omega
        · by_cases ht : t = 0
          · simp [processOne, hg, he, hmv, hd, ht] <;> omega
          · by_cases hp : env.postOk st.nposts
            · simp [processOne, hg, he, hmv, hd, ht, hp] <;> omega
            · simp [processOne, hg, he, hmv, hd, ht, hp] <;> omega

lemma runLoop_sum (env : Env) (mapping : List (String × Nat))
    (pb : String) (rb : Nat) :
    ∀ (l : List ResultRec) (st st1 : LoopState),
      runLoop env mapping pb rb st l = (st1, false) →
      st1.copied + st1.skipped + st1.errors
        = st.copied + st.skipped + st.errors + l.length := by
  intro l
  induction l with
  | nil =>
    intro st st1 h
    simp [runLoop] at h
    subst h
    rfl
  | cons res rest ih =>
    intro st st1 h
    rw [runLoop] at h
    rcases hp : processOne env mapping pb rb st res with ⟨st2, b⟩
    rw [hp] at h
    cases b with
    | true => simp at h
    | false =>
      have hsum : st2.copied + st2.skipped + st2.errors
          = st.copied + st.skipped + st.errors + 1 := by
        have := processOne_sum env mapping pb rb st res (by rw [hp])
        rw [hp] at this
        exact this
      have := ih st2 st1 h
      simp [this, hsum, List.length_cons]
      omega

/-- C2.  Whenever `copy_results` reaches per-item processing and finishes
without a fatal error (outcome `done s`), the summary satisfies
`copied + skipped + errors` = the number of project-B results whose
`run_id` equals `run_b`: each filtered result bumps exactly one counter
exactly once. -/
theorem C2_summary_partition (env : Env) (pa : String) (ra : Nat)
    (pb : String) (rb : Nat) (s : Summary)
    (h : (copy_results env pa ra pb rb).outcome = .done s) :
    s.copied + s.skipped + s.errors
      = (env.allResults.filter (fun r => r.run_id = some rb)).length := by
  unfold copy_results at h
  by_cases hm : (build_mapping env.casesA).isEmpty
  · simp [hm] at h
  · simp only [hm, if_false, Bool.false_eq_true] at h
    rcases hr : runLoop env (build_mapping env.casesA) pb rb initState
        (env.allResults.filter (fun r => r.run_id = some rb)) with ⟨st, b⟩
    rw [hr] at h
    cases b with
    | true => simp at h
    | false =>
      simp only [Outcome.done.injEq] at h
      have hsum := runLoop_sum env (build_mapping env.casesA) pb rb
        (env.allResults.filter (fun r => r.run_id = some rb)) initState st hr
      rw [← h]
      simpa [initState] using hsum

/-- Witness environment for C2: one mapped case in A, two project-B
results in run 1 (one eligible and copied, one for a foreign run), one
unmapped result skipped, one missing case erred, all writes succeed. -/
def envC2 : Env :=
  ⟨[⟨5, [⟨some 1, some "1001"⟩]⟩],
    [⟨some 1, some 10, .str "passed"⟩,
      ⟨some 2, some 10, .str "failed"⟩,
      ⟨some 1, some 11, .str "failed"⟩,
      ⟨some 1, some 12, .str "passed"⟩],
    fun cid =>
      if cid = some 10 then .ok (some ⟨10, [⟨some 1, some "1001"⟩]⟩)
      else if cid = some 11 then .ok (some ⟨11, []⟩)
      else .ok none,
    fun _ => true⟩

/-- Witness for C2: on `envC2` the run completes with summary
`⟨1, 1, 1⟩` and indeed `1 + 1 + 1` equals the 3 results filtered to
run 1. -/
theorem C2_summary_partition_witness :
    (copy_results envC2 "A" 7 "B" 1).outcome = .done ⟨1, 1, 1⟩
    ∧ 1 + 1 + 1
      = (envC2.allResults.filter (fun r => r.run_id = some 1)).length := by
  have h : (copy_results envC2 "A" 7 "B" 1).outcome = .done ⟨1, 1, 1⟩ := by decide
  exact ⟨h, by
    have := C2_summary_partition envC2 "A" 7 "B" 1 ⟨1, 1, 1⟩ h
    simpa using this⟩

/-- Counterexample environment for C1: project A maps `"1001"`, project B
has two results in run 1, and every case GET from project B answers with
a non-success HTTP status. -/
def envC1 : Env :=
  ⟨[⟨5, [⟨some 1, some "1001"⟩]⟩],
    [⟨some 1, some 10, .str "passed"⟩, ⟨some 1, some 11, .str "failed"⟩],
    fun _ => .httpErr,
    fun _ => true⟩

/-- Counterexample to C1 as stated: on `envC1` the very first case GET
returns a non-success response, and `copy_results` ends `fatal` (the
`RuntimeError` raised by `api_get` inside `get_case` is not caught in
the loop) instead of counting two errors and finishing; only one case
fetch is ever issued, so the second result is never processed. -/
theorem C1_counterexample :
    (copy_results envC1 "A" 1 "B" 1).outcome = .fatal
    ∧ (copy_results envC1 "A" 1 "B" 1).outcome ≠ .done ⟨0, 0, 2⟩
    ∧ (copy_results envC1 "A" 1 "B" 1).caseFetches = [some 10] := by
  decide

/-- C1 (amended).  A case GET that succeeds (HTTP 200) but carries a
missing/null `result` increments `errors` and the loop continues to the
next result; a case GET with a non-success HTTP response raises out of
the un-guarded `get_case` call and aborts the batch. -/
theorem C1_case_fetch_failure (env : Env) (mapping : List (String × Nat))
    (pb : String) (rb : Nat) (st : LoopState) (res : ResultRec) :
    (env.getCase res.case_id = .ok none →
      processOne env mapping pb rb st res =
        ({ st with
            errors := st.errors + 1,
            caseFetches := st.caseFetches ++ [res.case_id] }, false))
    ∧ (env.getCase res.case_id = .httpErr →
      processOne env mapping pb rb st res =
        ({ st with caseFetches := st.caseFetches ++ [res.case_id] }, true))
    ∧ (∀ (st1 : LoopState) (rest : List ResultRec),
        processOne env mapping pb rb st res = (st1, false) →
        runLoop env mapping pb rb st (res :: rest) =
          runLoop env mapping pb rb st1 rest)
    ∧ (∀ (st1 : LoopState) (rest : List ResultRec),
        processOne env mapping pb rb st res = (st1, true) →
        runLoop env mapping pb rb st (res :: rest) = (st1, true)) := by
  refine ⟨?_, ?_, ?_, ?_⟩
  · intro h
    simp [processOne, h]
  · intro h
    simp [processOne, h]
  · intro st1 rest h
    simp [runLoop, h]
  · intro st1 rest h
    simp [runLoop, h]

/-- Witness environment for C1's amended theorem: case 10 exists but
case 11's GET returns 200 with a null result. -/
def envC1w : Env :=
  ⟨[⟨5, [⟨some 1, some "1001"⟩]⟩],
    [⟨some 1, some 11, .str "passed"⟩],
    fun cid => if cid = some 11 then .ok none else .httpErr,
    fun _ => true⟩

/-- Witness for C1's amended theorem at a concrete input: the null-result
fetch of case 11 bumps `errors` and continues; the `httpErr` fetch of
case 12 raises. -/
theorem C1_case_fetch_failure_witness :
    (envC1w.getCase (some 11) = .ok none
      ∧ processOne envC1w [("1001", 5)] "B" 1 initState ⟨some 1, some 11, .str "passed"⟩ =
          (⟨0, 0, 1, 0, [], [some 11]⟩, false))
    ∧ (envC1w.getCase (some 12) = .httpErr
      ∧ processOne envC1w [("1001", 5)] "B" 1 initState ⟨some 1, some 12, .str "passed"⟩ =
          (⟨0, 0, 0, 0, [], [some 12]⟩, true)) := by
  have h1 : envC1w.getCase (some 11) = .ok none := rfl
  have h2 : envC1w.getCase (some 12) = .httpErr := rfl
  have r1 := (C1_case_fetch_failure envC1w [("1001", 5)] "B" 1 initState
    ⟨some 1, some 11, .str "passed"⟩).1 h1
  have r2 := (C1_case_fetch_failure envC1w [("1001", 5)] "B" 1 initState
    ⟨some 1, some 12, .str "passed"⟩).2.1 h2
  refine ⟨⟨h1, ?_⟩, ⟨h2, ?_⟩⟩
  · rw [r1]
    rfl
  · rw [r2]
    rfl

/-! ### Mapping-table lemmas (for C5 and C6) -/

lemma build_mapping_append (a b : List Case) :
    build_mapping (a ++ b) = build_mapping a ++ build_mapping b := by
  induction a with
  | nil => simp [build_mapping]
  | cons c rest ih => simp [build_mapping, ih]

lemma dget_append_right (a b : List (String × Nat)) (k : String) (r : Nat)
    (h : dget b k = some r) : dget (a ++ b) k = some r := by
  induction a with
  | nil => simpa using h
  | cons p rest ih =>
    rcases p with ⟨k1, v1⟩
    simp [dget, ih]

lemma dget_of_not_contrib (l : List Case) (v : String)
    (h : ∀ c ∈ l, extract_custom_field_value c.custom_fields MAPPING_FIELD_ID ≠ some v) :
    dget (build_mapping l) v = none := by
  induction l with
  | nil => rfl
  | cons c rest ih =>
    have hrest : dget (build_mapping rest) v = none :=
      ih (fun c2 hc2 => h c2 (List.mem_cons_of_mem c hc2))
    have hc : extract_custom_field_value c.custom_fields MAPPING_FIELD_ID ≠ some v :=
      h c (List.mem_cons_self c rest)
    rw [build_mapping]
    rcases he : extract_custom_field_value c.custom_fields MAPPING_FIELD_ID
      with _ | w
    · simpa [entryOf, he] using hrest
    · have hw : w ≠ v := by
        intro hwv
        exact hc (by rw [he, hwv])
      by_cases hemp : w.isEmpty
      · simpa [entryOf, he, hemp] using hrest
      · simp [entryOf, he, hemp, dget, hrest, hw]

/-- C5.  Last-write-wins: when several fetched destination cases carry
the same mapping value `v`, the table built by `build_mapping` resolves
`v` to the internal id of the case encountered last in fetched order
(here `c2`, with an earlier carrier `c1` and no carrier after `c2`). -/
theorem C5_last_write_wins (l1 l2 l3 : List Case) (c1 c2 : Case) (v : String)
    (h1 : extract_custom_field_value c1.custom_fields MAPPING_FIELD_ID = some v)
    (h2 : extract_custom_field_value c2.custom_fields MAPPING_FIELD_ID = some v)
    (hv : v.isEmpty = false)
    (h3 : ∀ c ∈ l3,
      extract_custom_field_value c.custom_fields MAPPING_FIELD_ID ≠ some v) :
    dget (build_mapping (l1 ++ c1 :: l2 ++ c2 :: l3)) v = some c2.id := by
  have htail : dget (build_mapping (c2 :: l3)) v = some c2.id := by
    rw [build_mapping]
    have hl3 := dget_of_not_contrib l3 v h3
    simp [entryOf, h2, hv, dget, hl3]
  have hsplit : l1 ++ c1 :: l2 ++ c2 :: l3 = (l1 ++ c1 :: l2) ++ (c2 :: l3) := by
    simp
  rw [hsplit, build_mapping_append]
  exact dget_append_right _ _ v c2.id htail

/-- Witness for C5: two cases both carrying `"1001"`; the table answers
with the id of the later one (9, not 5). -/
theorem C5_last_write_wins_witness :
    extract_custom_field_value [⟨some 1, some "1001"⟩] MAPPING_FIELD_ID = some "1001"
    ∧ extract_custom_field_value [⟨some 1, some " 1001 "⟩] MAPPING_FIELD_ID = some "1001"
    ∧ "1001".isEmpty = false
    ∧ dget (build_mapping
        ([] ++ (⟨5, [⟨some 1, some " 1001 "⟩]⟩ : Case) :: []
          ++ (⟨9, [⟨some 1, some "1001"⟩]⟩ : Case) :: [])) "1001" = some 9 := by
  refine ⟨by decide, by decide, by decide, ?_⟩
  exact C5_last_write_wins [] [] [] ⟨5, [⟨some 1, some " 1001 "⟩]⟩
    ⟨9, [⟨some 1, some "1001"⟩]⟩ "1001" (by decide) (by decide) (by decide)
    (by simp)

/-- Counterexample to C6 as stated: a case whose mapping custom field is
present but carries a JSON `null` value is NOT excluded — Python's
`str(None).strip()` is the non-empty string `"None"`, which is truthy,
so the case enters the table under the key `"None"`. -/
theorem C6_counterexample :
    extract_custom_field_value [⟨some 1, none⟩] MAPPING_FIELD_ID = some "None"
    ∧ build_mapping [⟨7, [⟨some 1, none⟩]⟩] = [("None", 7)]
    ∧ build_mapping [⟨7, [⟨some 1, none⟩]⟩] ≠ []
    ∧ dget (build_mapping [⟨7, [⟨some 1, none⟩]⟩]) "None" = some 7 := by
  decide

/-- C6 (amended).  A case participates in the mapping table only if its
stringified, trimmed mapping value is non-empty: a case whose mapping
custom field is absent, or whose trimmed value is the empty string, is
excluded; but a `null` value stringifies to the non-empty `"None"` and
therefore participates (it is not excluded).  Every table entry comes
from some case of the input with a non-empty extracted value. -/
theorem C6_mapping_participation :
    (∀ (cases : List Case) (v : String) (i : Nat),
      (v, i) ∈ build_mapping cases →
      v.isEmpty = false
        ∧ ∃ c ∈ cases, c.id = i
            ∧ extract_custom_field_value c.custom_fields MAPPING_FIELD_ID = some v)
    ∧ (∀ cfs : List CustomField,
      (∀ cf ∈ cfs, cf.id ≠ some MAPPING_FIELD_ID) →
      extract_custom_field_value cfs MAPPING_FIELD_ID = none)
    ∧ (∀ c : Case,
      extract_custom_field_value c.custom_fields MAPPING_FIELD_ID = none →
      entryOf c = [])
    ∧ (∀ (c : Case) (v : String),
      extract_custom_field_value c.custom_fields MAPPING_FIELD_ID = some v →
      v.isEmpty = true → entryOf c = [])
    ∧ (∀ i : Nat,
      entryOf ⟨i, [⟨some MAPPING_FIELD_ID, none⟩]⟩ = [("None", i)]) := by
  refine ⟨?_, ?_, ?_, ?_, ?_⟩
  · intro cases
    induction cases with
    | nil => intro v i h; simp [build_mapping] at h
    | cons c rest ih =>
      intro v i h
      rw [build_mapping, List.mem_append] at h
      rcases h with h | h
      · rcases he : extract_custom_field_value c.custom_fields MAPPING_FIELD_ID
          with _ | w
        · simp [entryOf, he] at h
        · by_cases hemp : w.isEmpty
          · simp [entryOf, he, hemp] at h
          · simp only [entryOf, he, hemp, if_false, Bool.false_eq_true,
              List.mem_singleton, Prod.mk.injEq] at h
            refine ⟨?_, c, List.mem_cons_self c rest, ?_, ?_⟩
            · rw [← h.1] at hemp
              simpa using hemp
            · exact h.2.symm
            · rw [← h.1] at he
              exact he
      · obtain ⟨hv, c2, hc2, hrest⟩ := ih v i h
        exact ⟨hv, c2, List.mem_cons_of_mem c hc2, hrest⟩
  · intro cfs
    induction cfs with
    | nil => intro _; rfl
    | cons cf rest ih =>
      intro h
      have hcf : cf.id ≠ some MAPPING_FIELD_ID := h cf (List.mem_cons_self cf rest)
      rw [extract_custom_field_value, if_neg hcf]
      exact ih (fun cf2 hm => h cf2 (List.mem_cons_of_mem cf hm))
  · intro c h
    simp [entryOf, h]
  · intro c v h hemp
    simp [entryOf, h, hemp]
  · intro i
    rfl

/-- Witness for C6's amended theorem at concrete inputs: the entry
`("1001", 5)` of a one-case table comes from that case; a case list
without field id 1 extracts nothing; a field-less case and an
empty-valued case contribute nothing; a null value contributes
`("None", 7)`. -/
theorem C6_mapping_participation_witness :
    (("1001", 5) ∈ build_mapping [⟨5, [⟨some 1, some "1001"⟩]⟩]
      ∧ "1001".isEmpty = false
      ∧ ∃ c ∈ [(⟨5, [⟨some 1, some "1001"⟩]⟩ : Case)], c.id = 5
          ∧ extract_custom_field_value c.custom_fields MAPPING_FIELD_ID = some "1001")
    ∧ ((∀ cf ∈ [(⟨some 2, some "x"⟩ : CustomField)], cf.id ≠ some MAPPING_FIELD_ID)
      ∧ extract_custom_field_value [⟨some 2, some "x"⟩] MAPPING_FIELD_ID = none)
    ∧ (extract_custom_field_value ([] : List CustomField) MAPPING_FIELD_ID = none
      ∧ entryOf ⟨3, []⟩ = [])
    ∧ (extract_custom_field_value [⟨some 1, some "  "⟩] MAPPING_FIELD_ID = some ""
      ∧ "".isEmpty = true
      ∧ entryOf ⟨4, [⟨some 1, some "  "⟩]⟩ = [])
    ∧ entryOf ⟨7, [⟨some MAPPING_FIELD_ID, none⟩]⟩ = [("None", 7)] := by
  have hmem : ("1001", 5) ∈ build_mapping [⟨5, [⟨some 1, some "1001"⟩]⟩] := by decide
  have hfar : ∀ cf ∈ [(⟨some 2, some "x"⟩ : CustomField)],
      cf.id ≠ some MAPPING_FIELD_ID := by decide
  have habs : extract_custom_field_value ([] : List CustomField) MAPPING_FIELD_ID
      = none := rfl
  have hempv : extract_custom_field_value [⟨some 1, some "  "⟩] MAPPING_FIELD_ID
      = some "" := by decide
  refine ⟨⟨hmem, ?_, ?_⟩, ⟨hfar, ?_⟩, ⟨habs, ?_⟩, ⟨hempv, rfl, ?_⟩, ?_⟩
  · exact (C6_mapping_participation.1 [⟨5, [⟨some 1, some "1001"⟩]⟩] "1001" 5 hmem).1
  · exact (C6_mapping_participation.1 [⟨5, [⟨some 1, some "1001"⟩]⟩] "1001" 5 hmem).2
  · exact C6_mapping_participation.2.1 [⟨some 2, some "x"⟩] hfar
  · exact C6_mapping_participation.2.2.1 ⟨3, []⟩ habs
  · exact C6_mapping_participation.2.2.2.1 ⟨4, [⟨some 1, some "  "⟩]⟩ "" hempv rfl
  · exact C6_mapping_participation.2.2.2.2 7

/-- Environment for C7: project A has one case without any mapping
field, so the mapping table is empty; project B has a result that would
otherwise be processed. -/
def envC7 : Env :=
  ⟨[⟨5, []⟩],
    [⟨some 1, some 10, .str "passed"⟩],
    fun _ => .ok (some ⟨10, [⟨some 1, some "1001"⟩]⟩),
    fun _ => true⟩

/-- Counterexample to C7 as stated: with an empty mapping table the run
does terminate immediately with no fetches and no writes, but it emits
NO summary at all (the bare `return` precedes the creation of the
summary dict and the `summary.json` write), rather than a zeroed
summary. -/
theorem C7_counterexample :
    copy_results envC7 "A" 1 "B" 1 = ⟨.earlyReturn, [], [], false⟩
    ∧ (copy_results envC7 "A" 1 "B" 1).outcome ≠ .done ⟨0, 0, 0⟩ := by
  decide

/-- C7 (amended).  If the mapping table built for project A is empty,
`copy_results` reports the condition and returns immediately: no summary
is emitted (in particular no zeroed one), the project-B result
collection is never fetched, no case GET is issued and no write is
attempted. -/
theorem C7_empty_mapping_early_return (env : Env) (pa : String) (ra : Nat)
    (pb : String) (rb : Nat) (h : build_mapping env.casesA = []) :
    copy_results env pa ra pb rb = ⟨.earlyReturn, [], [], false⟩
    ∧ ∀ s : Summary, (copy_results env pa ra pb rb).outcome ≠ .done s := by
  have hrun : copy_results env pa ra pb rb = ⟨.earlyReturn, [], [], false⟩ := by
    unfold copy_results
    simp [h]
  refine ⟨hrun, ?_⟩
  intro s
  rw [hrun]
  simp

/-- Witness for C7's amended theorem: `envC7`'s project-A case carries no
mapping field, so its table is empty and the run returns early. -/
theorem C7_empty_mapping_early_return_witness :
    build_mapping envC7.casesA = []
    ∧ copy_results envC7 "A" 1 "B" 1 = ⟨.earlyReturn, [], [], false⟩
    ∧ (copy_results envC7 "A" 1 "B" 1).outcome ≠ .done ⟨7, 8, 9⟩ := by
  have h : build_mapping envC7.casesA = [] := rfl
  have hr := C7_empty_mapping_early_return envC7 "A" 1 "B" 1 h
  exact ⟨h, hr.1, hr.2 ⟨7, 8, 9⟩⟩

/-- C8.  When a filtered result reaches the write step (its case fetch
succeeded, the extracted mapping value is truthy and resolves to a
non-zero target case id `t`), the payload appended to the POST trace is
exactly `{case_id: t, status: str(status).lower(), comment: "Copied from
<project_b> run <run_b>"}` — the lower-cased original status string, not
the numeric code `convert_status` would produce. -/
theorem C8_payload_composition (env : Env) (mapping : List (String × Nat))
    (pb : String) (rb : Nat) (st : LoopState) (res : ResultRec)
    (c : Case) (v : String) (t : Nat)
    (hc : env.getCase res.case_id = .ok (some c))
    (hv : extract_custom_field_value c.custom_fields MAPPING_FIELD_ID = some v)
    (hne : v.isEmpty = false)
    (ht : dget mapping v = some t)
    (ht0 : t ≠ 0) :
    ((processOne env mapping pb rb st res).1).posts =
      st.posts ++ [⟨t, pyLower (pyStrStatus res.status),
        "Copied from " ++ pb ++ " run " ++ toString rb⟩] := by
  by_cases hp : env.postOk st.nposts
  · simp [processOne, hc, hv, hne, ht, ht0, hp]
  · simp [processOne, hc, hv, hne, ht, ht0, hp]

/-- Witness environment for C8, C9 and C10 variants: project-B case 10
maps through `"1001"` to A's case 5; case 11 maps through `"1002"` to
A's case 0. -/
def envW : Env :=
  ⟨[⟨5, [⟨some 1, some "1001"⟩]⟩, ⟨0, [⟨some 1, some "1002"⟩]⟩],
    [⟨some 1, some 10, .str "Failed"⟩],
    fun cid =>
      if cid = some 10 then .ok (some ⟨10, [⟨some 1, some "1001"⟩]⟩)
      else if cid = some 11 then .ok (some ⟨11, [⟨some 1, some "1002"⟩]⟩)
      else .ok none,
    fun k => k ≠ 0⟩

/-- Witness for C8: result of case 10 with raw status `"Failed"` posts
`{case_id: 5, status: "failed", ...}` — the lower-cased string, not the
numeric `5` that `convert_status` maps `"failed"` to. -/
theorem C8_payload_composition_witness :
    envW.getCase (some 10) = .ok (some ⟨10, [⟨some 1, some "1001"⟩]⟩)
    ∧ extract_custom_field_value [⟨some 1, some "1001"⟩] MAPPING_FIELD_ID = some "1001"
    ∧ "1001".isEmpty = false
    ∧ dget (build_mapping envW.casesA) "1001" = some 5
    ∧ (5 : Nat) ≠ 0
    ∧ ((processOne envW (build_mapping envW.casesA) "B" 1 initState
          ⟨some 1, some 10, .str "Failed"⟩).1).posts =
        initState.posts ++ [⟨5, pyLower (pyStrStatus (.str "Failed")),
          "Copied from " ++ "B" ++ " run " ++ toString 1⟩]
    ∧ pyLower (pyStrStatus (.str "Failed")) = "failed" := by
  refine ⟨rfl, by decide, by decide, by decide, by decide, ?_, by decide⟩
  exact C8_payload_composition envW (build_mapping envW.casesA) "B" 1 initState
    ⟨some 1, some 10, .str "Failed"⟩ ⟨10, [⟨some 1, some "1001"⟩]⟩ "1001" 5
    rfl (by decide) (by decide) (by decide) (by decide)

/-- C9.  A destination write failure is isolated to its item: when an
eligible result's POST raises, the iteration ends with `errors` bumped
by one, exactly one write attempt recorded and the raised flag `false`,
so the loop goes on to the next result (which, symmetrically, bumps
`copied` when its own POST succeeds); a raised-flag-`false` iteration
never stops `runLoop`. -/
theorem C9_write_failure_isolated (env : Env) (mapping : List (String × Nat))
    (pb : String) (rb : Nat) (st : LoopState) (res : ResultRec)
    (c : Case) (v : String) (t : Nat)
    (hc : env.getCase res.case_id = .ok (some c))
    (hv : extract_custom_field_value c.custom_fields MAPPING_FIELD_ID = some v)
    (hne : v.isEmpty = false)
    (ht : dget mapping v = some t)
    (ht0 : t ≠ 0) :
    (env.postOk st.nposts = false →
      processOne env mapping pb rb st res =
        ({ st with
            errors := st.errors + 1,
            nposts := st.nposts + 1,
            posts := st.posts ++ [⟨t, pyLower (pyStrStatus res.status),
              "Copied from " ++ pb ++ " run " ++ toString rb⟩],
            caseFetches := st.caseFetches ++ [res.case_id] }, false))
    ∧ (env.postOk st.nposts = true →
      processOne env mapping pb rb st res =
        ({ st with
            copied := st.copied + 1,
            nposts := st.nposts + 1,
            posts := st.posts ++ [⟨t, pyLower (pyStrStatus res.status),
              "Copied from " ++ pb ++ " run " ++ toString rb⟩],
            caseFetches := st.caseFetches ++ [res.case_id] }, false))
    ∧ (∀ (st1 : LoopState) (rest : List ResultRec),
        processOne env mapping pb rb st res = (st1, false) →
        runLoop env mapping pb rb st (res :: rest) =
          runLoop env mapping pb rb st1 rest) := by
  refine ⟨?_, ?_, ?_⟩
  · intro hp
    simp [processOne, hc, hv, hne, ht, ht0, hp]
  · intro hp
    simp [processOne, hc, hv, hne, ht, ht0, hp]
  · intro st1 rest h
    simp [runLoop, h]

/-- Witness for C9: with `envW.postOk` failing the first write, the
eligible result of case 10 is counted in `errors`, the loop is not
aborted, and a second identical iteration (now at write index 1, which
succeeds) is counted in `copied`. -/
theorem C9_write_failure_isolated_witness :
    envW.postOk 0 = false
    ∧ processOne envW (build_mapping envW.casesA) "B" 1 initState
        ⟨some 1, some 10, .str "Failed"⟩ =
        (⟨0, 0, 1, 1,
          [⟨5, pyLower (pyStrStatus (.str "Failed")),
            "Copied from " ++ "B" ++ " run " ++ toString 1⟩], [some 10]⟩, false)
    ∧ envW.postOk 1 = true := by
  have h := (C9_write_failure_isolated envW (build_mapping envW.casesA) "B" 1
    initState ⟨some 1, some 10, .str "Failed"⟩ ⟨10, [⟨some 1, some "1001"⟩]⟩
    "1001" 5 rfl (by decide) (by decide) (by decide) (by decide)).1 rfl
  refine ⟨rfl, ?_, rfl⟩
  rw [h]
  rfl

/-- C10.  A mapping-table hit whose stored destination case id is `0` is
treated exactly like a miss — Python tests `if not target_case_id:` for
truthiness and `0` is falsy — so the result is counted `skipped`, no
payload is posted, and the loop continues. -/
theorem C10_zero_target_id_skipped (env : Env) (mapping : List (String × Nat))
    (pb : String) (rb : Nat) (st : LoopState) (res : ResultRec)
    (c : Case) (v : String)
    (hc : env.getCase res.case_id = .ok (some c))
    (hv : extract_custom_field_value c.custom_fields MAPPING_FIELD_ID = some v)
    (hne : v.isEmpty = false)
    (ht : dget mapping v = some 0) :
    processOne env mapping pb rb st res =
      ({ st with
          skipped := st.skipped + 1,
          caseFetches := st.caseFetches ++ [res.case_id] }, false) := by
  simp [processOne, hc, hv, hne, ht]

/-- Witness for C10: project-A case 0 carries mapping value `"1002"`, so
the table stores `("1002", 0)`; project-B case 11's result is skipped
with nothing posted. -/
theorem C10_zero_target_id_skipped_witness :
    dget (build_mapping envW.casesA) "1002" = some 0
    ∧ processOne envW (build_mapping envW.casesA) "B" 1 initState
        ⟨some 1, some 11, .str "passed"⟩ =
        (⟨0, 1, 0, 0, [], [some 11]⟩, false) := by
  have h := C10_zero_target_id_skipped envW (build_mapping envW.casesA) "B" 1
    initState ⟨some 1, some 11, .str "passed"⟩ ⟨11, [⟨some 1, some "1002"⟩]⟩
    "1002" rfl (by decide) (by decide) (by decide)
  refine ⟨by decide, ?_⟩
  rw [h]
  rfl

end QaseCopy
